import Mathlib

/-!
Shallow embedding of `src/research/sifter.py` (the Sifter A/B scoring tool).

The module-level mutable state (`pairs`, `scores`, and the output file) is
modelled as an explicit `ServerState` record threaded through the handlers.
JSON score values read back from the output file are modelled by `JVal`
(numbers, strings, booleans); an absent or null `score` field is `none`.
The output file `output.jsonl` is modelled as the list of JSON objects on
its lines; each line is a `Pair` merged with a `score` field (`OutputLine`).
-/

namespace Sifter

/-- A JSON scalar that can appear in a `score` field of `output.jsonl`. -/
inductive JVal where
  | jnum : Int → JVal
  | jstr : String → JVal
  | jbool : Bool → JVal
  deriving DecidableEq, Repr

/-- One input record: a line of `input.jsonl` with fields `a`, `b` and an
optional `font`. -/
structure Pair where
  a : String
  b : String
  font : Option String
  deriving DecidableEq, Repr

/-- One line of `output.jsonl`: the input object merged with a `score` field,
as written by `flush_output` (`json.dumps({**pair, "score": score})`). -/
structure OutputLine where
  pair : Pair
  score : Option JVal
  deriving DecidableEq, Repr

/-- Response of a handler: a 200 payload, a `JSONResponse` error with message
and HTTP status, or an uncaught Python exception propagating out. -/
inductive Resp (α : Type) where
  | ok : α → Resp α
  | err : String → Nat → Resp α
  | raised : Resp α
  deriving DecidableEq, Repr

/-- The module-level state of `sifter.py`: globals `pairs` and `scores`, plus
the content of `jobs/<job>/output.jsonl` (`none` when the file does not
exist) and a counter of `flush_output` invocations (for observing that a
submission triggers persistence). -/
structure ServerState where
  pairs : List Pair
  scores : List (Option JVal)
  outputFile : Option (List OutputLine)
  flushCount : Nat
  deriving DecidableEq, Repr

/-- `scores = [None] * len(pairs)` performed by `load_input`. -/
def init_scores (n : Nat) : List (Option JVal) :=
  List.replicate n none

/-- `flush_output`: writes `json.dumps({**pair, "score": score})` for each
`(pair, score)` in `zip(pairs, scores)`, overwriting the file. -/
def flush_output (pairs : List Pair) (scores : List (Option JVal)) :
    List OutputLine :=
  (pairs.zip scores).map (fun ps => { pair := ps.1, score := ps.2 })

/-- The loop body of `load_existing_output`: for each line `i` of the file,
while `i < len(scores)`, set `scores[i] = obj.get("score")`; `break` once
the scores list is exhausted.  Positions are consumed left to right, so the
in-place updates are the zip-like recursion below. -/
def applyOutputLines : List (Option JVal) → List OutputLine → List (Option JVal)
  | scores, [] => scores
  | [], _ :: _ => []
  | _ :: rest, l :: ls => l.score :: applyOutputLines rest ls

/-- `load_existing_output`: returns the current scores unchanged when the
output file does not exist, otherwise overwrites prefix positions from the
file's lines. -/
def load_existing_output (scores : List (Option JVal))
    (file : Option (List OutputLine)) : List (Option JVal) :=
  match file with
  | none => scores
  | some lines => applyOutputLines scores lines

/-- The spec's `resume`: `load_input` initialises `scores` to all-`None` of
length `len(pairs)`, then `load_existing_output` replays the output file. -/
def resume (file : Option (List OutputLine)) (n : Nat) : List (Option JVal) :=
  load_existing_output (init_scores n) file

/-- Handler `status`: `{"total": len(pairs), "scored": sum(1 for s in scores
if s is not None)}`. -/
def status (st : ServerState) : Nat × Nat :=
  (st.pairs.length, st.scores.countP (fun s => s.isSome))

/-- Handler `get_pair`: bounds-check `idx < 0 or idx >= len(pairs)` then
return `{"index": idx, **pairs[idx], "score": scores[idx]}`.  The `raised`
branch is the Python `IndexError` that `scores[idx]` would raise if `scores`
were shorter than `pairs`; it is unreachable under the length invariant. -/
def get_pair (st : ServerState) (idx : Int) : Resp (Int × Pair × Option JVal) :=
  if idx < 0 ∨ (st.pairs.length : Int) ≤ idx then Resp.err "out of range" 404
  else
    match st.pairs[idx.toNat]?, st.scores[idx.toNat]? with
    | some p, some s => Resp.ok (idx, p, s)
    | _, _ => Resp.raised

/-- The loop of `first_unscored`: `for i, s in enumerate(scores): if s is
None: return i` — the index of the first `None`, if any. -/
def scan_unscored : List (Option JVal) → Option Nat
  | [] => none
  | none :: _ => some 0
  | some _ :: rest => (scan_unscored rest).map (fun k => k + 1)

/-- Handler `first_unscored`: linear scan returning the first `i` with
`scores[i] is None`, else index `0`. -/
def first_unscored (scores : List (Option JVal)) : Nat :=
  (scan_unscored scores).getD 0

/-- Python membership `s in (1, 2, 3, 4, 5)` on a JSON value, using Python
equality: `True == 1` holds, so a JSON `true` passes the check; strings
never equal an int. -/
def pyIn15 : JVal → Bool
  | JVal.jnum s => s == 1 || s == 2 || s == 3 || s == 4 || s == 5
  | JVal.jbool b => b
  | JVal.jstr _ => false

/-- Handler `set_score`, with the flush effect made explicit.  `flushOk`
says whether `flush_output` completes; when it raises (e.g. disk full) the
exception propagates out of the handler (`Resp.raised`), after the in-memory
assignment `scores[idx] = s` has already happened and without updating the
output file.  `s` is `body.get("score")`.  `flushCount` counts invocations
of `flush_output`. -/
def set_score_flush (flushOk : Bool) (st : ServerState) (idx : Int)
    (s : Option JVal) : ServerState × Resp Unit :=
  if idx < 0 ∨ (st.pairs.length : Int) ≤ idx then
    (st, Resp.err "out of range" 404)
  else
    match s with
    | none => (st, Resp.err "score must be 1-5" 400)
    | some v =>
      if pyIn15 v then
        let scores2 := st.scores.set idx.toNat (some v)
        if flushOk then
          ({ st with scores := scores2,
                     outputFile := some (flush_output st.pairs scores2),
                     flushCount := st.flushCount + 1 }, Resp.ok ())
        else
          ({ st with scores := scores2,
                     flushCount := st.flushCount + 1 }, Resp.raised)
      else (st, Resp.err "score must be 1-5" 400)

/-- Handler `set_score` in the normal case where the flush succeeds. -/
def set_score (st : ServerState) (idx : Int) (s : Option JVal) :
    ServerState × Resp Unit :=
  set_score_flush true st idx s

/-- The file contents observable while `flush_output` runs: `open(path, "w")`
truncates the file in place, then each line is appended in turn, so a reader
(or a crash) at step `k` sees the first `k` lines of the new content. -/
def flush_observable_states (pairs : List Pair) (scores : List (Option JVal)) :
    List (List OutputLine) :=
  (List.range ((flush_output pairs scores).length + 1)).map
    (fun k => (flush_output pairs scores).take k)

/-! ### Helper lemmas -/

theorem applyOutputLines_length (s : List (Option JVal)) (l : List OutputLine) :
    (applyOutputLines s l).length = s.length := by
  induction s generalizing l with
  | nil => cases l <;> rfl
  | cons a rest ih =>
    cases l with
    | nil => rfl
    | cons x xs => simpa [applyOutputLines] using ih xs

theorem applyOutputLines_getElem_lt (s : List (Option JVal))
    (l : List OutputLine) (i : Nat) (hs : i < s.length) (hl : i < l.length) :
    (applyOutputLines s l)[i]? = some (l.get ⟨i, hl⟩).score := by
  induction s generalizing l i with
  | nil => simp at hs
  | cons a rest ih =>
    cases l with
    | nil => simp at hl
    | cons x xs =>
      cases i with
      | zero => simp [applyOutputLines]
      | succ j =>
        simpa [applyOutputLines] using
          ih xs j (by simpa using hs) (by simpa using hl)

theorem applyOutputLines_getElem_ge (s : List (Option JVal))
    (l : List OutputLine) (i : Nat) (hl : l.length ≤ i) :
    (applyOutputLines s l)[i]? = s[i]? := by
  induction s generalizing l i with
  | nil => cases l <;> simp [applyOutputLines]
  | cons a rest ih =>
    cases l with
    | nil => rfl
    | cons x xs =>
      cases i with
      | zero => simp at hl
      | succ j => simpa [applyOutputLines] using ih xs j (by simpa using hl)

theorem applyOutputLines_take (s : List (Option JVal)) (l : List OutputLine) :
    applyOutputLines s l = applyOutputLines s (l.take s.length) := by
  induction s generalizing l with
  | nil => cases l <;> rfl
  | cons a rest ih =>
    cases l with
    | nil => rfl
    | cons x xs => simpa [applyOutputLines] using ih xs

theorem applyOutputLines_flush (p : List Pair) (s : List (Option JVal))
    (h : s.length = p.length) :
    applyOutputLines (List.replicate p.length none) (flush_output p s) = s := by
  induction p generalizing s with
  | nil =>
    cases s with
    | nil => rfl
    | cons b bs => simp at h
  | cons a as ih =>
    cases s with
    | nil => simp at h
    | cons b bs =>
      have hb : bs.length = as.length := by simpa using h
      simpa [flush_output, List.replicate, applyOutputLines] using
        ih bs hb

theorem countP_isSome_set (s : List (Option JVal)) (n : Nat) (v : JVal) :
    s.countP (fun x => x.isSome) ≤
      (s.set n (some v)).countP (fun x => x.isSome) := by
  induction s generalizing n with
  | nil => simp
  | cons a rest ih =>
    cases n with
    | zero =>
      simp only [List.set, List.countP_cons]
      cases a <;> simp
    | succ m =>
      simp only [List.set, List.countP_cons]
      have := ih m
      omega

theorem scan_unscored_eq_none (s : List (Option JVal))
    (h : ∀ x ∈ s, x ≠ none) : scan_unscored s = none := by
  induction s with
  | nil => rfl
  | cons a rest ih =>
    cases a with
    | none => exact absurd rfl (h none (by simp))
    | some v =>
      simp [scan_unscored, ih (fun x hx => h x (by simp [hx]))]

theorem scan_unscored_spec (s : List (Option JVal)) (i : Nat)
    (h : s[i]? = some none) :
    ∃ k, scan_unscored s = some k ∧ s[k]? = some none ∧ k ≤ i := by
  induction s generalizing i with
  | nil => simp at h
  | cons a rest ih =>
    cases a with
    | none => exact ⟨0, rfl, by simp, Nat.zero_le i⟩
    | some v =>
      cases i with
      | zero => simp at h
      | succ j =>
        obtain ⟨k, hk, hget, hle⟩ := ih j (by simpa using h)
        exact ⟨k + 1, by simp [scan_unscored, hk], by simpa using hget,
          by omega⟩

/-! ### Claim theorems -/

/-- C3: persist followed by resume reproduces the exact Score sequence, for
any Record sequence and any equally long Score sequence (in particular any
sequence of absent/1..5 values, at sizes 0, 1 and N). -/
theorem C3_persist_resume_roundtrip (p : List Pair) (s : List (Option JVal))
    (h : s.length = p.length) :
    resume (some (flush_output p s)) p.length = s := by
  simpa [resume, load_existing_output, init_scores] using
    applyOutputLines_flush p s h

/-- C3 witness at a concrete input: records of size 2, one scored and one
absent entry. -/
theorem C3_persist_resume_roundtrip_witness :
    ([some (JVal.jnum 4), none] : List (Option JVal)).length =
        ([⟨"a", "b", none⟩, ⟨"c", "d", none⟩] : List Pair).length ∧
      resume
        (some (flush_output [⟨"a", "b", none⟩, ⟨"c", "d", none⟩]
          [some (JVal.jnum 4), none]))
        ([⟨"a", "b", none⟩, ⟨"c", "d", none⟩] : List Pair).length =
        [some (JVal.jnum 4), none] :=
  ⟨by decide,
    C3_persist_resume_roundtrip [⟨"a", "b", none⟩, ⟨"c", "d", none⟩]
      [some (JVal.jnum 4), none] (by decide)⟩

/-- C4: resume is total over output-file states: a missing file yields the
all-absent sequence of length `n = len(Records)`; otherwise line `i`'s score
field is assigned to index `i` in order, reading stops after `n` lines
(extra lines are ignored), and when the file has fewer lines than `n` the
remaining indices stay absent — no error in any case. -/
theorem C4_resume_total (lines : List OutputLine) (n : Nat) :
    resume none n = List.replicate n none ∧
    (resume (some lines) n).length = n ∧
    (∀ i, (hi : i < n) → (hl : i < lines.length) →
      (resume (some lines) n)[i]? = some (lines.get ⟨i, hl⟩).score) ∧
    resume (some lines) n = resume (some (lines.take n)) n ∧
    (∀ i, lines.length ≤ i → i < n → (resume (some lines) n)[i]? = some none) := by
  refine ⟨rfl, ?_, ?_, ?_, ?_⟩
  · simpa [resume, load_existing_output, init_scores] using
      applyOutputLines_length (List.replicate n none) lines
  · intro i hi hl
    simpa [resume, load_existing_output, init_scores] using
      applyOutputLines_getElem_lt (List.replicate n none) lines i
        (by simpa using hi) hl
  · have := applyOutputLines_take (List.replicate n none) lines
    simpa [resume, load_existing_output, init_scores] using this
  · intro i hge hlt
    have := applyOutputLines_getElem_ge (List.replicate n none) lines i hge
    simp only [resume, load_existing_output, init_scores]
    rw [this, List.getElem?_replicate, if_pos hlt]

/-- C4 witness: one output line, two records — index 0 reads the stored
score, index 1 stays absent. -/
theorem C4_resume_total_witness :
    (resume (some [⟨⟨"a", "b", none⟩, some (JVal.jnum 5)⟩]) 2)[0]? =
        some (some (JVal.jnum 5)) ∧
      (resume (some [⟨⟨"a", "b", none⟩, some (JVal.jnum 5)⟩]) 2)[1]? =
        some none :=
  ⟨by
    have h :=
      (C4_resume_total [⟨⟨"a", "b", none⟩, some (JVal.jnum 5)⟩] 2).2.2.1 0
        (by decide) (by decide)
    simpa using h,
   (C4_resume_total [⟨⟨"a", "b", none⟩, some (JVal.jnum 5)⟩] 2).2.2.2.2 1
      (by decide) (by decide)⟩

/-- C6: `first_unscored` returns the smallest index whose score is absent;
when no score is absent (including the empty dataset) it returns 0. -/
theorem C6_first_unscored_spec (s : List (Option JVal)) :
    ((∀ x ∈ s, x ≠ none) → first_unscored s = 0) ∧
    (∀ i, s[i]? = some none →
      s[first_unscored s]? = some none ∧ first_unscored s ≤ i) := by
  constructor
  · intro h
    simp [first_unscored, scan_unscored_eq_none s h]
  · intro i hi
    obtain ⟨k, hk, hget, hle⟩ := scan_unscored_spec s i hi
    simp [first_unscored, hk, hget, hle]

/-- C6 witness: the first absent index of `[some 2, none, none]` is 1, and
a fully scored list falls back to 0. -/
theorem C6_first_unscored_spec_witness :
    ([some (JVal.jnum 2), none, none] :
        List (Option JVal))[first_unscored
          [some (JVal.jnum 2), none, none]]? = some none ∧
      first_unscored [some (JVal.jnum 2), none, none] ≤ 1 ∧
      first_unscored [some (JVal.jnum 3)] = 0 :=
  ⟨((C6_first_unscored_spec [some (JVal.jnum 2), none, none]).2 1
      (by decide)).1,
   ((C6_first_unscored_spec [some (JVal.jnum 2), none, none]).2 1
      (by decide)).2,
   (C6_first_unscored_spec [some (JVal.jnum 3)]).1 (by decide)⟩

theorem set_score_flush_ok_eq (st : ServerState) (i : Nat) (v : JVal)
    (hi : i < st.pairs.length) (hpy : pyIn15 v = true) :
    set_score_flush true st (i : Int) (some v) =
      ({ st with scores := st.scores.set i (some v),
                 outputFile :=
                   some (flush_output st.pairs (st.scores.set i (some v))),
                 flushCount := st.flushCount + 1 }, Resp.ok ()) := by
  have hguard : ¬((i : Int) < 0 ∨ (st.pairs.length : Int) ≤ (i : Int)) := by
    push_neg
    constructor <;> [positivity; exact_mod_cast hi]
  simp only [set_score_flush, if_neg hguard, hpy, if_true]
  simp [hi]

theorem set_score_flush_fail_eq (st : ServerState) (i : Nat) (v : JVal)
    (hi : i < st.pairs.length) (hpy : pyIn15 v = true) :
    set_score_flush false st (i : Int) (some v) =
      ({ st with scores := st.scores.set i (some v),
                 flushCount := st.flushCount + 1 }, Resp.raised) := by
  have hguard : ¬((i : Int) < 0 ∨ (st.pairs.length : Int) ≤ (i : Int)) := by
    push_neg
    constructor <;> [positivity; exact_mod_cast hi]
  simp only [set_score_flush, if_neg hguard, hpy, if_true]
  simp [hi]

theorem pyIn15_jnum_of_mem (v : Int)
    (hv : v = 1 ∨ v = 2 ∨ v = 3 ∨ v = 4 ∨ v = 5) :
    pyIn15 (JVal.jnum v) = true := by
  simp only [pyIn15, Bool.or_eq_true, beq_iff_eq]
  tauto

theorem pyIn15_jnum_of_not_mem (v : Int)
    (hv : ¬(v = 1 ∨ v = 2 ∨ v = 3 ∨ v = 4 ∨ v = 5)) :
    pyIn15 (JVal.jnum v) = false := by
  simp only [pyIn15, Bool.or_eq_false_iff, beq_eq_false_iff_ne, ne_eq]
  push_neg at hv
  tauto

theorem set_score_flush_pairs (fOk : Bool) (st : ServerState) (idx : Int)
    (body : Option JVal) :
    (set_score_flush fOk st idx body).1.pairs = st.pairs := by
  unfold set_score_flush
  split
  · rfl
  · cases body with
    | none => rfl
    | some v =>
      dsimp only
      split
      · split <;> rfl
      · rfl

theorem set_score_flush_scores (fOk : Bool) (st : ServerState) (idx : Int)
    (body : Option JVal) :
    (set_score_flush fOk st idx body).1.scores = st.scores ∨
      ∃ v, (set_score_flush fOk st idx body).1.scores =
        st.scores.set idx.toNat (some v) := by
  unfold set_score_flush
  split
  · exact Or.inl rfl
  · cases body with
    | none => exact Or.inl rfl
    | some v =>
      dsimp only
      split
      · split
        · exact Or.inr ⟨v, rfl⟩
        · exact Or.inr ⟨v, rfl⟩
      · exact Or.inl rfl

/-- C1: a successful `submitScore(i, v)` returns ok, has written `v` into
the score sequence (so `getRecord(i)` reports score `v`), and has already
persisted the full session state: the output file equals the flush of the
updated scores, and resuming from it reproduces `v` at index `i`. -/
theorem C1_submit_score_durable (st : ServerState) (i : Nat) (v : Int)
    (hlen : st.scores.length = st.pairs.length)
    (hi : i < st.pairs.length)
    (hv : v = 1 ∨ v = 2 ∨ v = 3 ∨ v = 4 ∨ v = 5) :
    (set_score st (i : Int) (some (JVal.jnum v))).2 = Resp.ok () ∧
    get_pair (set_score st (i : Int) (some (JVal.jnum v))).1 (i : Int) =
      Resp.ok ((i : Int), st.pairs.get ⟨i, hi⟩, some (JVal.jnum v)) ∧
    (set_score st (i : Int) (some (JVal.jnum v))).1.outputFile =
      some (flush_output st.pairs
        (st.scores.set i (some (JVal.jnum v)))) ∧
    (resume (set_score st (i : Int) (some (JVal.jnum v))).1.outputFile
        st.pairs.length)[i]? = some (some (JVal.jnum v)) := by
  have hpy := pyIn15_jnum_of_mem v hv
  have hred := set_score_flush_ok_eq st i (JVal.jnum v) hi hpy
  have hguard : ¬((i : Int) < 0 ∨ (st.pairs.length : Int) ≤ (i : Int)) := by
    push_neg
    constructor <;> [positivity; exact_mod_cast hi]
  have hlen2 : (st.scores.set i (some (JVal.jnum v))).length =
      st.pairs.length := by simp [hlen]
  refine ⟨by simp [set_score, hred], ?_, by simp [set_score, hred], ?_⟩
  · have hp : st.pairs[i]? = some (st.pairs.get ⟨i, hi⟩) := by
      simp [List.getElem?_eq_getElem hi]
    have hsc : (st.scores.set i (some (JVal.jnum v)))[i]? =
        some (some (JVal.jnum v)) :=
      List.getElem?_set_eq_of_lt _ (by omega)
    simp only [set_score, hred, get_pair, hguard, if_false, if_neg hguard,
      Int.toNat_natCast, hp, hsc]
  · have hrt : resume (some (flush_output st.pairs
        (st.scores.set i (some (JVal.jnum v))))) st.pairs.length =
        st.scores.set i (some (JVal.jnum v)) := by
      simpa [resume, load_existing_output, init_scores] using
        applyOutputLines_flush st.pairs _ hlen2
    have hfile : (set_score st (i : Int) (some (JVal.jnum v))).1.outputFile =
        some (flush_output st.pairs (st.scores.set i (some (JVal.jnum v)))) := by
      simp [set_score, hred]
    rw [hfile, hrt]
    exact List.getElem?_set_eq_of_lt _ (by omega)

/-- C1 witness: one record, score 3 submitted at index 0. -/
theorem C1_submit_score_durable_witness :
    (set_score ⟨[⟨"a", "b", none⟩], [none], none, 0⟩ ((0 : Nat) : Int)
        (some (JVal.jnum 3))).2 = Resp.ok () ∧
      get_pair (set_score ⟨[⟨"a", "b", none⟩], [none], none, 0⟩
          ((0 : Nat) : Int) (some (JVal.jnum 3))).1 ((0 : Nat) : Int) =
        Resp.ok (((0 : Nat) : Int), ⟨"a", "b", none⟩, some (JVal.jnum 3)) ∧
      (resume (set_score ⟨[⟨"a", "b", none⟩], [none], none, 0⟩
          ((0 : Nat) : Int) (some (JVal.jnum 3))).1.outputFile 1)[0]? =
        some (some (JVal.jnum 3)) := by
  have h := C1_submit_score_durable ⟨[⟨"a", "b", none⟩], [none], none, 0⟩ 0 3
    (by decide) (by decide) (by tauto)
  exact ⟨h.1, h.2.1, h.2.2.2⟩

/-- C5: an out-of-bounds index (such as -1 or `total`) makes `get_pair` and
`set_score` return the 404 "out of range" error — a structured response,
never an exception — and a score value outside 1..5 (such as 0 or 6) at a
valid index makes `set_score` return the 400 validation error; in every
failure case the state is returned unchanged. -/
theorem C5_bounds_and_validation (st : ServerState) (idx : Int)
    (body : Option JVal) (i : Nat) (v : Int)
    (hout : idx < 0 ∨ (st.pairs.length : Int) ≤ idx)
    (hi : i < st.pairs.length)
    (hv : ¬(v = 1 ∨ v = 2 ∨ v = 3 ∨ v = 4 ∨ v = 5)) :
    get_pair st idx = Resp.err "out of range" 404 ∧
    set_score st idx body = (st, Resp.err "out of range" 404) ∧
    set_score st (i : Int) (some (JVal.jnum v)) =
      (st, Resp.err "score must be 1-5" 400) := by
  have hguard : ¬((i : Int) < 0 ∨ (st.pairs.length : Int) ≤ (i : Int)) := by
    push_neg
    constructor <;> [positivity; exact_mod_cast hi]
  have hpy := pyIn15_jnum_of_not_mem v hv
  refine ⟨by simp [get_pair, hout], by simp [set_score, set_score_flush, hout],
    ?_⟩
  simp only [set_score, set_score_flush, if_neg hguard, hpy]
  simp [hi]

/-- C5 witness: one record; `get_pair(-1)` and `set_score(-1, 3)` are out of
range, `set_score(0, 6)` fails validation, all without changing state. -/
theorem C5_bounds_and_validation_witness :
    get_pair ⟨[⟨"a", "b", none⟩], [none], none, 0⟩ (-1) =
        Resp.err "out of range" 404 ∧
      set_score ⟨[⟨"a", "b", none⟩], [none], none, 0⟩ (-1)
          (some (JVal.jnum 3)) =
        (⟨[⟨"a", "b", none⟩], [none], none, 0⟩, Resp.err "out of range" 404) ∧
      set_score ⟨[⟨"a", "b", none⟩], [none], none, 0⟩ ((0 : Nat) : Int)
          (some (JVal.jnum 6)) =
        (⟨[⟨"a", "b", none⟩], [none], none, 0⟩,
          Resp.err "score must be 1-5" 400) :=
  C5_bounds_and_validation ⟨[⟨"a", "b", none⟩], [none], none, 0⟩ (-1)
    (some (JVal.jnum 3)) 0 6 (by decide) (by decide) (by decide)

/-- C7: `status` reports `total = len(pairs)` and `scored` = the number of
non-absent entries of the score sequence (it is a pure function of the
state), and the scored count never decreases across a `set_score` call —
no branch of `set_score` ever resets an entry to absent. -/
theorem C7_status_invariant (st : ServerState) (idx : Int)
    (body : Option JVal) :
    (status st).1 = st.pairs.length ∧
    (status st).2 = (st.scores.filter (fun s => s ≠ none)).length ∧
    (status st).2 ≤ (status (set_score st idx body).1).2 ∧
    (set_score st idx body).1.pairs = st.pairs := by
  refine ⟨rfl, ?_, ?_, set_score_flush_pairs true st idx body⟩
  · simp only [status, List.countP_eq_length_filter]
    congr 1
    apply List.filter_congr
    intro x _
    cases x <;> simp
  · rcases set_score_flush_scores true st idx body with h | ⟨v, h⟩
    · simp [status, set_score, h]
    · simp only [status, set_score, h]
      exact countP_isSome_set st.scores idx.toNat v

/-- C8: when the flush raises during `set_score`, the handler returns the
propagated exception rather than success, the in-memory score assignment is
kept (no rollback), the output file is not updated — memory is ahead of
durable storage — and exactly one flush was attempted (no retry). -/
theorem C8_flush_failure_no_rollback (st : ServerState) (i : Nat) (v : Int)
    (hi : i < st.pairs.length)
    (hv : v = 1 ∨ v = 2 ∨ v = 3 ∨ v = 4 ∨ v = 5) :
    (set_score_flush false st (i : Int) (some (JVal.jnum v))).2 =
        Resp.raised ∧
    (set_score_flush false st (i : Int) (some (JVal.jnum v))).2 ≠
        Resp.ok () ∧
    (set_score_flush false st (i : Int) (some (JVal.jnum v))).1.scores =
        st.scores.set i (some (JVal.jnum v)) ∧
    (set_score_flush false st (i : Int) (some (JVal.jnum v))).1.outputFile =
        st.outputFile ∧
    (set_score_flush false st (i : Int) (some (JVal.jnum v))).1.flushCount =
        st.flushCount + 1 := by
  have hred :=
    set_score_flush_fail_eq st i (JVal.jnum v) hi (pyIn15_jnum_of_mem v hv)
  exact ⟨by simp [hred], by simp [hred], by simp [hred], by simp [hred],
    by simp [hred]⟩

/-- C8 witness: one record with a previously persisted file; the failed
flush leaves the old file while memory holds the new score. -/
theorem C8_flush_failure_no_rollback_witness :
    (set_score_flush false ⟨[⟨"a", "b", none⟩], [none], some [], 7⟩
        ((0 : Nat) : Int) (some (JVal.jnum 2))).2 = Resp.raised ∧
      (set_score_flush false ⟨[⟨"a", "b", none⟩], [none], some [], 7⟩
          ((0 : Nat) : Int) (some (JVal.jnum 2))).1.scores =
        [some (JVal.jnum 2)] ∧
      (set_score_flush false ⟨[⟨"a", "b", none⟩], [none], some [], 7⟩
          ((0 : Nat) : Int) (some (JVal.jnum 2))).1.outputFile = some [] := by
  have h := C8_flush_failure_no_rollback ⟨[⟨"a", "b", none⟩], [none], some [], 7⟩
    0 2 (by decide) (by tauto)
  exact ⟨h.1, by rw [h.2.2.1]; rfl, h.2.2.2.1⟩

/-- C9: submitting the same valid score twice at the same index leaves the
session state (records, scores, output file) identical to submitting it
once, the second call also succeeds, and persistence ran on both calls —
the flush count rises by two. -/
theorem C9_idempotent_resubmit (st : ServerState) (i : Nat) (v : Int)
    (hi : i < st.pairs.length)
    (hv : v = 1 ∨ v = 2 ∨ v = 3 ∨ v = 4 ∨ v = 5) :
    (set_score (set_score st (i : Int) (some (JVal.jnum v))).1 (i : Int)
          (some (JVal.jnum v))).1.pairs =
        (set_score st (i : Int) (some (JVal.jnum v))).1.pairs ∧
    (set_score (set_score st (i : Int) (some (JVal.jnum v))).1 (i : Int)
          (some (JVal.jnum v))).1.scores =
        (set_score st (i : Int) (some (JVal.jnum v))).1.scores ∧
    (set_score (set_score st (i : Int) (some (JVal.jnum v))).1 (i : Int)
          (some (JVal.jnum v))).1.outputFile =
        (set_score st (i : Int) (some (JVal.jnum v))).1.outputFile ∧
    (set_score (set_score st (i : Int) (some (JVal.jnum v))).1 (i : Int)
          (some (JVal.jnum v))).2 = Resp.ok () ∧
    (set_score (set_score st (i : Int) (some (JVal.jnum v))).1 (i : Int)
          (some (JVal.jnum v))).1.flushCount = st.flushCount + 2 := by
  have hpy := pyIn15_jnum_of_mem v hv
  have hred1 := set_score_flush_ok_eq st i (JVal.jnum v) hi hpy
  have hi1 : i < ({ st with
      scores := st.scores.set i (some (JVal.jnum v)),
      outputFile :=
        some (flush_output st.pairs (st.scores.set i (some (JVal.jnum v)))),
      flushCount := st.flushCount + 1 } : ServerState).pairs.length := hi
  have hred2 := set_score_flush_ok_eq _ i (JVal.jnum v) hi1 hpy
  simp only [set_score, hred1, hred2]
  simp [List.set_set]

/-- C9 witness: score 5 submitted twice at index 0 of a one-record state. -/
theorem C9_idempotent_resubmit_witness :
    (set_score (set_score ⟨[⟨"a", "b", none⟩], [none], none, 0⟩
          ((0 : Nat) : Int) (some (JVal.jnum 5))).1 ((0 : Nat) : Int)
          (some (JVal.jnum 5))).1.scores =
        (set_score ⟨[⟨"a", "b", none⟩], [none], none, 0⟩ ((0 : Nat) : Int)
            (some (JVal.jnum 5))).1.scores ∧
      (set_score (set_score ⟨[⟨"a", "b", none⟩], [none], none, 0⟩
            ((0 : Nat) : Int) (some (JVal.jnum 5))).1 ((0 : Nat) : Int)
            (some (JVal.jnum 5))).1.outputFile =
        (set_score ⟨[⟨"a", "b", none⟩], [none], none, 0⟩ ((0 : Nat) : Int)
            (some (JVal.jnum 5))).1.outputFile ∧
      (set_score (set_score ⟨[⟨"a", "b", none⟩], [none], none, 0⟩
            ((0 : Nat) : Int) (some (JVal.jnum 5))).1 ((0 : Nat) : Int)
            (some (JVal.jnum 5))).1.flushCount = 2 := by
  have h := C9_idempotent_resubmit ⟨[⟨"a", "b", none⟩], [none], none, 0⟩ 0 5
    (by decide) (by tauto)
  exact ⟨h.2.1, h.2.2.1, h.2.2.2.2⟩

/-- C2 is refuted on the code: `flush_output` opens the output file with
mode "w" (truncate in place) and then writes one line at a time, so a
reader — or a crash — between the truncation and the last write observes a
file that is neither the previous content nor the new content.  Concrete
run: two records, record 0 already persisted with score 3; re-flushing after
scoring record 1 passes through an observable state (here the empty
truncated file, and also the one-line file) different from both the old and
the new file. -/
theorem C2_flush_not_atomic :
    ∃ s ∈ flush_observable_states [⟨"a", "b", none⟩, ⟨"c", "d", none⟩]
        [some (JVal.jnum 3), some (JVal.jnum 5)],
      s ≠ flush_output [⟨"a", "b", none⟩, ⟨"c", "d", none⟩]
          [some (JVal.jnum 3), none] ∧
      s ≠ flush_output [⟨"a", "b", none⟩, ⟨"c", "d", none⟩]
          [some (JVal.jnum 3), some (JVal.jnum 5)] := by
  decide

/-- C10: `load_existing_output` copies whatever the score field of line `i`
holds — any integer, string or boolean — into `scores[i]` with no
validation, and such a value then counts as scored for `status` and is
skipped by `first_unscored`; only `set_score` enforces the 1..5 domain
(e.g. the string "3" is rejected there). -/
theorem C10_resume_no_validation (v : JVal) (p q : Pair)
    (lines : List OutputLine) (n i : Nat)
    (hi : i < n) (hl : i < lines.length) :
    (resume (some lines) n)[i]? = some (lines.get ⟨i, hl⟩).score ∧
    first_unscored (resume (some [⟨p, some v⟩, ⟨q, none⟩]) 2) = 1 ∧
    (status { pairs := [p, q],
              scores := resume (some [⟨p, some v⟩, ⟨q, none⟩]) 2,
              outputFile := none, flushCount := 0 }).2 = 1 ∧
    (set_score { pairs := [p, q], scores := List.replicate 2 none,
                 outputFile := none, flushCount := 0 } (0 : Int)
        (some (JVal.jstr "3"))).2 = Resp.err "score must be 1-5" 400 := by
  have hres : resume (some [⟨p, some v⟩, ⟨q, none⟩]) 2 = [some v, none] := rfl
  refine ⟨?_, ?_, ?_, ?_⟩
  · simpa [resume, load_existing_output, init_scores] using
      applyOutputLines_getElem_lt (List.replicate n none) lines i
        (by simpa using hi) hl
  · rw [hres]
    rfl
  · rw [hres]
    simp [status]
  · simp [set_score, set_score_flush, pyIn15]

/-- C10 witness: an out-of-domain numeric score 99 is read back verbatim at
index 0, and a string score is skipped by `first_unscored`. -/
theorem C10_resume_no_validation_witness :
    (resume (some [⟨⟨"a", "b", none⟩, some (JVal.jnum 99)⟩]) 2)[0]? =
        some (some (JVal.jnum 99)) ∧
      first_unscored (resume (some [⟨⟨"a", "b", none⟩,
          some (JVal.jstr "banana")⟩, ⟨⟨"c", "d", none⟩, none⟩]) 2) = 1 := by
  have h := C10_resume_no_validation (JVal.jstr "banana") ⟨"a", "b", none⟩
    ⟨"c", "d", none⟩ [⟨⟨"a", "b", none⟩, some (JVal.jnum 99)⟩] 2 0
    (by decide) (by decide)
  exact ⟨by simpa using h.1, h.2.1⟩

end Sifter
